import Mathlib

/-!
Shallow embedding of the `gated_token` Anchor program
(src/contracts/gated-token/programs/gated-token/src/lib.rs).

Modelling conventions:
* Solana public keys (`Pubkey`) are abstracted as naturals; clock timestamps
  (`i64`) as integers; `u64` quantities as naturals together with the explicit
  bound `U64_LIMIT = 2 ^ 64` where overflow matters.
* Rust `String` fields validated by `.len()` (a byte length) are embedded as
  `List UInt8`, so that `List.length` is exactly the byte length.
* The Keyed Store (Anchor program-derived accounts) is an association list:
  `TokenConfig` records keyed by the mint, `AllowlistEntry` records keyed by
  the (mint, wallet) pair, matching the seed tuples in the source.
* Each instruction is a function `ChainState → args → Except ErrorCode ChainState`.
  Anchor validates the `#[derive(Accounts)]` context in field order before the
  handler body runs, so account-level failures (PDA lookup, `init` collision,
  `constraint = ... @ Error`) are evaluated before the body `require!`s.
  An `Except.error` result models a rejected transaction: Solana rolls back
  every write, so the caller keeps the pre-call state (no partial mutation).
* The Ledger Service calls (`token::mint_to`, `token::transfer` CPIs), the
  token accounts they touch, and event emission are external collaborators;
  they hold no gating state and are not modelled.
* PDA bump bytes are produced by the external address derivation; they take
  part in no gating logic, so the `bump` fields are stored as `0`.
-/

namespace GatedToken

/-- Modulus of the unsigned 64-bit `total_supply` counter. -/
def U64_LIMIT : Nat := 2 ^ 64

/-- Account identities (Solana public keys), abstracted. -/
abbrev Pubkey := Nat

/-- The `TokenConfig` account: one per token identity, keyed by the mint. -/
structure TokenConfig where
  authority : Pubkey
  mint : Pubkey
  symbol : List UInt8
  name : List UInt8
  decimals : Nat
  total_supply : Nat
  bump : Nat
  deriving DecidableEq

/-- The `AllowlistEntry` account: one per (token identity, wallet) pair. -/
structure AllowlistEntry where
  wallet : Pubkey
  is_approved : Bool
  approved_at : Int
  revoked_at : Option Int
  bump : Nat
  deriving DecidableEq

/-- Error outcomes. The first nine mirror the source `ErrorCode` enum;
`AlreadyExists` and `NotFound` are the account-layer (Keyed Store) failures:
an `init` constraint colliding with an existing account, and a PDA lookup of
an account that was never created. -/
inductive ErrorCode where
  | InvalidSymbol
  | InvalidName
  | InvalidDecimals
  | InvalidAmount
  | WalletNotApproved
  | SenderNotApproved
  | RecipientNotApproved
  | UnauthorizedAuthority
  | Overflow
  | AlreadyExists
  | NotFound
  deriving DecidableEq

/-- The `#[msg("...")]` string attached to each source `ErrorCode` variant;
`none` for the two account-layer errors, whose messages come from the
framework. -/
def errorMsg : ErrorCode → Option String
  | .InvalidSymbol => some "Invalid symbol: must be 3-10 uppercase letters"
  | .InvalidName => some "Invalid name: must be 2-50 characters"
  | .InvalidDecimals => some "Invalid decimals: must be 0-9"
  | .InvalidAmount => some "Invalid amount: must be greater than 0"
  | .WalletNotApproved => some "Wallet is not approved on the allowlist"
  | .SenderNotApproved => some "Sender wallet is not approved"
  | .RecipientNotApproved => some "Recipient wallet is not approved"
  | .UnauthorizedAuthority => some "Unauthorized: only authority can perform this action"
  | .Overflow => some "Arithmetic overflow"
  | .AlreadyExists => none
  | .NotFound => none

/-- Association-list lookup for the Keyed Store. -/
def lookupKey {α β : Type} [DecidableEq α] : List (α × β) → α → Option β
  | [], _ => none
  | (k, v) :: rest, key => if k = key then some v else lookupKey rest key

/-- Association-list insert-or-overwrite for the Keyed Store. -/
def setKey {α β : Type} [DecidableEq α] : List (α × β) → α → β → List (α × β)
  | [], key, v => [(key, v)]
  | (k, w) :: rest, key, v =>
      if k = key then (k, v) :: rest else (k, w) :: setKey rest key v

/-- The persisted program state: all `TokenConfig` and `AllowlistEntry`
accounts, keyed as in the source seeds. -/
structure ChainState where
  configs : List (Pubkey × TokenConfig)
  entries : List ((Pubkey × Pubkey) × AllowlistEntry)
  deriving DecidableEq

/-- The `u64::checked_add` used for the supply update: `none` exactly when the
mathematical sum does not fit in 64 bits. -/
def checked_add (a b : Nat) : Option Nat :=
  if a + b < U64_LIMIT then some (a + b) else none

/-- Instruction `initialize_token`. Account validation: the `init` constraint
on `token_config` fails when a config for this mint already exists. Body:
the three `require!`s on symbol byte length, name byte length and decimals,
then the new config is written with `total_supply = 0`. -/
def initialize_token (s : ChainState) (authority mint : Pubkey)
    (symbol name : List UInt8) (decimals : Nat) : Except ErrorCode ChainState :=
  match lookupKey s.configs mint with
  | some _ => .error .AlreadyExists
  | none =>
    if 3 ≤ symbol.length ∧ symbol.length ≤ 10 then
      if 2 ≤ name.length ∧ name.length ≤ 50 then
        if decimals ≤ 9 then
          let token_config : TokenConfig :=
            { authority := authority, mint := mint, symbol := symbol,
              name := name, decimals := decimals, total_supply := 0, bump := 0 }
          .ok { s with configs := setKey s.configs mint token_config }
        else .error .InvalidDecimals
      else .error .InvalidName
    else .error .InvalidSymbol

/-- Instruction `approve_wallet`. Account validation, in `ApproveWallet` field
order: `token_config` is located by its seeds and its
`constraint = token_config.authority == authority.key()` is checked, then
`allowlist_entry` is created by `init`, which fails when the account already
exists. Body: the fresh entry is written with `is_approved = true`,
`approved_at = now`; `revoked_at` keeps its zero-initialized value `none`. -/
def approve_wallet (s : ChainState) (caller wallet mint : Pubkey) (now : Int) :
    Except ErrorCode ChainState :=
  match lookupKey s.configs mint with
  | none => .error .NotFound
  | some config =>
    if config.authority ≠ caller then .error .UnauthorizedAuthority
    else match lookupKey s.entries (mint, wallet) with
    | some _ => .error .AlreadyExists
    | none =>
      let allowlist_entry : AllowlistEntry :=
        { wallet := wallet, is_approved := true, approved_at := now,
          revoked_at := none, bump := 0 }
      .ok { s with entries := setKey s.entries (mint, wallet) allowlist_entry }

/-- Instruction `revoke_wallet`. Account validation: `token_config` authority
constraint, then the `allowlist_entry` PDA lookup (fails with `NotFound` when
the entry was never created). Body: sets `is_approved = false`,
`revoked_at = Some(now)`; all other fields are untouched. -/
def revoke_wallet (s : ChainState) (caller wallet mint : Pubkey) (now : Int) :
    Except ErrorCode ChainState :=
  match lookupKey s.configs mint with
  | none => .error .NotFound
  | some config =>
    if config.authority ≠ caller then .error .UnauthorizedAuthority
    else match lookupKey s.entries (mint, wallet) with
    | none => .error .NotFound
    | some entry =>
      let revoked : AllowlistEntry :=
        { entry with is_approved := false, revoked_at := some now }
      .ok { s with entries := setKey s.entries (mint, wallet) revoked }

/-- Instruction `mint_tokens`. Account validation, in `MintTokens` field
order: `token_config` authority constraint, then the
`recipient_allowlist_entry` PDA lookup. Body: `require!(amount > 0)`,
`require!(recipient_entry.is_approved)`, the external Ledger Service
`mint_to`, then the checked supply update (`Overflow` aborts the whole
transaction, so the supply is unchanged on that path too). -/
def mint_tokens (s : ChainState) (caller recipient mint : Pubkey) (amount : Nat) :
    Except ErrorCode ChainState :=
  match lookupKey s.configs mint with
  | none => .error .NotFound
  | some config =>
    if config.authority ≠ caller then .error .UnauthorizedAuthority
    else match lookupKey s.entries (mint, recipient) with
    | none => .error .NotFound
    | some recipient_entry =>
      if amount > 0 then
        if recipient_entry.is_approved then
          match checked_add config.total_supply amount with
          | none => .error .Overflow
          | some new_supply =>
            let updated : TokenConfig := { config with total_supply := new_supply }
            .ok { s with configs := setKey s.configs mint updated }
        else .error .WalletNotApproved
      else .error .InvalidAmount

/-- Instruction `gated_transfer`. The caller (the `authority` signer field of
`GatedTransfer`) is the sender; its allowlist entry is derived from the
caller key. Account validation: `token_config` is located by its seeds with
NO authority constraint, then the sender and recipient entry PDA lookups.
Body: `require!(amount > 0)`, sender approval, recipient approval, then the
external Ledger Service `transfer`, which touches no gating state. -/
def gated_transfer (s : ChainState) (caller recipient mint : Pubkey) (amount : Nat) :
    Except ErrorCode ChainState :=
  match lookupKey s.configs mint with
  | none => .error .NotFound
  | some _ =>
    match lookupKey s.entries (mint, caller) with
    | none => .error .NotFound
    | some sender_entry =>
      match lookupKey s.entries (mint, recipient) with
      | none => .error .NotFound
      | some recipient_entry =>
        if amount > 0 then
          if sender_entry.is_approved then
            if recipient_entry.is_approved then .ok s
            else .error .RecipientNotApproved
          else .error .SenderNotApproved
        else .error .InvalidAmount

/-- Looking a key up right after setting it yields the value just set. -/
theorem lookupKey_setKey_self {α β : Type} [DecidableEq α]
    (l : List (α × β)) (k : α) (v : β) :
    lookupKey (setKey l k v) k = some v := by
  induction l with
  | nil => simp [setKey, lookupKey]
  | cons hd tl ih =>
    by_cases h : hd.1 = k
    · simp [setKey, lookupKey, h]
    · simp [setKey, lookupKey, h, ih]

/-- The entry record as written by a successful `approve_wallet`. -/
def freshApproval (wallet : Pubkey) (now : Int) : AllowlistEntry :=
  { wallet := wallet, is_approved := true, approved_at := now,
    revoked_at := none, bump := 0 }

/-- The config record as written by a successful `initialize_token`. -/
def mkConfig (authority mint : Pubkey) (symbol name : List UInt8)
    (decimals : Nat) : TokenConfig :=
  { authority := authority, mint := mint, symbol := symbol, name := name,
    decimals := decimals, total_supply := 0, bump := 0 }

/-- State with the config of `mint` replaced by `config` at supply `n`. -/
def setSupply (s : ChainState) (mint : Pubkey) (config : TokenConfig)
    (n : Nat) : ChainState :=
  { s with configs := setKey s.configs mint { config with total_supply := n } }

/-- State with the allowlist entry of `(mint, wallet)` replaced by `e`. -/
def setEntry (s : ChainState) (mint wallet : Pubkey) (e : AllowlistEntry) :
    ChainState :=
  { s with entries := setKey s.entries (mint, wallet) e }

/-- State with the config of `mint` set to `c`. -/
def setConfig (s : ChainState) (mint : Pubkey) (c : TokenConfig) : ChainState :=
  { s with configs := setKey s.configs mint c }

/-- Concrete fixtures used by witnesses and counterexamples. -/
def symABC : List UInt8 := [65, 66, 67]

/-- Byte fixture for a valid two-byte name. -/
def nameAB : List UInt8 := [65, 66]

/-- A token config: mint 0, authority 1, zero supply. -/
def cfg0 : TokenConfig := mkConfig 1 0 symABC nameAB 6

/-- The empty chain state. -/
def stEmpty : ChainState := { configs := [], entries := [] }

/-- State right after initializing the token: one config, no entries. -/
def stInit : ChainState := { configs := [(0, cfg0)], entries := [] }

/-- An approved allowlist entry for wallet 2. -/
def entryApproved : AllowlistEntry := freshApproval 2 10

/-- A revoked allowlist entry for wallet 2 (approved at 10, revoked at 20). -/
def entryRevoked : AllowlistEntry :=
  { wallet := 2, is_approved := false, approved_at := 10,
    revoked_at := some 20, bump := 0 }

/-- State where wallet 2 holds an approved entry. -/
def stApproved : ChainState :=
  { configs := [(0, cfg0)], entries := [((0, 2), entryApproved)] }

/-- State where wallet 2 was approved and then revoked. -/
def stRevoked : ChainState :=
  { configs := [(0, cfg0)], entries := [((0, 2), entryRevoked)] }

/-- An approved allowlist entry for wallet 3 (a non-authority sender). -/
def entrySender : AllowlistEntry := freshApproval 3 11

/-- State where wallets 3 (sender) and 2 (recipient) are both approved. -/
def stTwoApproved : ChainState :=
  { configs := [(0, cfg0)],
    entries := [((0, 3), entrySender), ((0, 2), entryApproved)] }

/-- C1, counterexample. The claim says `approve_wallet` updates an existing
entry, so that a second approve (here after a revoke) succeeds with
`is_approved = true` and a refreshed `approved_at`. In the source the
`allowlist_entry` account of `ApproveWallet` carries the `init` constraint,
which fails when the account already exists: re-approving wallet 2 in a state
where its (revoked) entry exists is rejected with `AlreadyExists` and the
entry stays revoked. -/
theorem approve_wallet_reapproval_rejected :
    approve_wallet stRevoked 1 2 0 30 = .error .AlreadyExists := by rfl

/-- C1, amended. For the authority caller, `approve_wallet` creates the
`AllowlistEntry` only when it is absent; the fresh entry has
`is_approved = true`, `approved_at = now` and `revoked_at = none`. When an
entry for the (mint, wallet) pair already exists — approved or revoked — the
call fails with `AlreadyExists` (the rejected transaction mutates nothing). -/
theorem approve_wallet_create_only (s : ChainState)
    (caller wallet mint : Pubkey) (now : Int) (config : TokenConfig)
    (hc : lookupKey s.configs mint = some config)
    (ha : config.authority = caller) :
    (lookupKey s.entries (mint, wallet) = none →
      approve_wallet s caller wallet mint now =
        .ok (setEntry s mint wallet (freshApproval wallet now))) ∧
    (∀ e, lookupKey s.entries (mint, wallet) = some e →
      approve_wallet s caller wallet mint now = .error .AlreadyExists) := by
  constructor
  · intro he
    simp [approve_wallet, hc, he, ha, setEntry, freshApproval]
  · intro e he
    simp [approve_wallet, hc, he, ha]

/-- C1, witness for the amended theorem at a concrete input. -/
theorem approve_wallet_create_only_witness :
    approve_wallet stInit 1 2 0 30 =
      .ok (setEntry stInit 0 2 (freshApproval 2 30)) :=
  (approve_wallet_create_only stInit 1 2 0 30 cfg0 rfl rfl).1 rfl

/-- C2. Starting from a config with `total_supply = 0`, an authority mint of
`a` to an approved recipient yields supply `a`; a second mint of `b` yields
supply `a + b` when the sum fits in 64 bits, and fails with `Overflow`
leaving the supply at `a` otherwise — the `checked_add` never wraps or
saturates. -/
theorem mint_tokens_supply_additivity (s : ChainState)
    (caller recipient mint : Pubkey) (a b : Nat) (config : TokenConfig)
    (e : AllowlistEntry)
    (hc : lookupKey s.configs mint = some config)
    (ha : config.authority = caller)
    (h0 : config.total_supply = 0)
    (he : lookupKey s.entries (mint, recipient) = some e)
    (hap : e.is_approved = true)
    (hapos : 0 < a) (hbpos : 0 < b) (halt : a < U64_LIMIT) :
    mint_tokens s caller recipient mint a = .ok (setSupply s mint config a) ∧
    (a + b < U64_LIMIT →
      mint_tokens (setSupply s mint config a) caller recipient mint b =
        .ok (setSupply (setSupply s mint config a) mint config (a + b))) ∧
    (U64_LIMIT ≤ a + b →
      mint_tokens (setSupply s mint config a) caller recipient mint b =
        .error .Overflow ∧
      lookupKey (setSupply s mint config a).configs mint =
        some { config with total_supply := a }) := by
  refine ⟨?_, ?_, ?_⟩
  · simp [mint_tokens, hc, ha, h0, he, hap, hapos, checked_add, halt, setSupply]
  · intro hlt
    simp [mint_tokens, setSupply, lookupKey_setKey_self, ha, he, hap, hbpos,
      checked_add, hlt]
  · intro hge
    constructor
    · simp [mint_tokens, setSupply, lookupKey_setKey_self, ha, he, hap, hbpos,
        checked_add, Nat.not_lt.mpr hge]
    · simp [setSupply, lookupKey_setKey_self]

/-- C2, witness: minting 7 then 5 from supply 0 yields supply 12. -/
theorem mint_tokens_supply_additivity_witness :
    mint_tokens stApproved 1 2 0 7 = .ok (setSupply stApproved 0 cfg0 7) ∧
    mint_tokens (setSupply stApproved 0 cfg0 7) 1 2 0 5 =
      .ok (setSupply (setSupply stApproved 0 cfg0 7) 0 cfg0 12) := by
  have h := mint_tokens_supply_additivity stApproved 1 2 0 7 5 cfg0
    entryApproved rfl rfl rfl rfl rfl (by decide) (by decide) (by decide)
  exact ⟨h.1, h.2.1 (by decide)⟩

/-- C3. With a positive amount and both allowlist entries present,
`gated_transfer` fails with `SenderNotApproved` whenever the sender entry has
`is_approved = false`, for every recipient entry (the sender check runs first
and short-circuits); it fails with `RecipientNotApproved` when the sender is
approved but the recipient is not; and it reaches the Ledger Service transfer
(returning `ok` with unchanged gating state) exactly when both are
approved. -/
theorem gated_transfer_gate_checks (s : ChainState)
    (caller recipient mint : Pubkey) (amount : Nat)
    (config : TokenConfig) (sender_entry recipient_entry : AllowlistEntry)
    (hc : lookupKey s.configs mint = some config)
    (hs : lookupKey s.entries (mint, caller) = some sender_entry)
    (hr : lookupKey s.entries (mint, recipient) = some recipient_entry)
    (hamt : 0 < amount) :
    (sender_entry.is_approved = false →
      gated_transfer s caller recipient mint amount =
        .error .SenderNotApproved) ∧
    (sender_entry.is_approved = true → recipient_entry.is_approved = false →
      gated_transfer s caller recipient mint amount =
        .error .RecipientNotApproved) ∧
    (sender_entry.is_approved = true → recipient_entry.is_approved = true →
      gated_transfer s caller recipient mint amount = .ok s) := by
  refine ⟨?_, ?_, ?_⟩
  · intro hsna
    simp [gated_transfer, hc, hs, hr, hamt, hsna]
  · intro hsa hrna
    simp [gated_transfer, hc, hs, hr, hamt, hsa, hrna]
  · intro hsa hra
    simp [gated_transfer, hc, hs, hr, hamt, hsa, hra]

/-- C3, witness: both wallets approved, the transfer goes through. -/
theorem gated_transfer_gate_checks_witness :
    gated_transfer stTwoApproved 3 2 0 4 = .ok stTwoApproved :=
  (gated_transfer_gate_checks stTwoApproved 3 2 0 4 cfg0 entrySender
    entryApproved rfl rfl rfl (by decide)).2.2 rfl rfl

/-- C4. `gated_transfer` never compares the caller with
`TokenConfig.authority`: for an approved sender and approved recipient and a
positive amount, the transfer is authorized even when the calling sender is
not the authority — while `mint_tokens`, invoked by the same non-authority
caller under the same conditions, fails with `UnauthorizedAuthority`. -/
theorem gated_transfer_no_authority_check (s : ChainState)
    (caller recipient mint : Pubkey) (amount : Nat)
    (config : TokenConfig) (sender_entry recipient_entry : AllowlistEntry)
    (hc : lookupKey s.configs mint = some config)
    (hne : config.authority ≠ caller)
    (hs : lookupKey s.entries (mint, caller) = some sender_entry)
    (hsa : sender_entry.is_approved = true)
    (hr : lookupKey s.entries (mint, recipient) = some recipient_entry)
    (hra : recipient_entry.is_approved = true)
    (hamt : 0 < amount) :
    gated_transfer s caller recipient mint amount = .ok s ∧
    mint_tokens s caller recipient mint amount =
      .error .UnauthorizedAuthority := by
  constructor
  · simp [gated_transfer, hc, hs, hr, hamt, hsa, hra]
  · simp [mint_tokens, hc, hne]

/-- C4, witness: wallet 3 is not the authority yet transfers fine; the same
call shape through `mint_tokens` is rejected. -/
theorem gated_transfer_no_authority_check_witness :
    gated_transfer stTwoApproved 3 2 0 4 = .ok stTwoApproved ∧
    mint_tokens stTwoApproved 3 2 0 4 = .error .UnauthorizedAuthority :=
  gated_transfer_no_authority_check stTwoApproved 3 2 0 4 cfg0 entrySender
    entryApproved rfl (by decide) rfl rfl rfl rfl (by decide)

/-- C5. For any caller that differs from `TokenConfig.authority`, both
`approve_wallet` and `mint_tokens` fail with `UnauthorizedAuthority` for
every wallet, recipient, timestamp and amount — the `constraint` on
`token_config` fires during account validation, before any other condition
is even consulted, and the rejected transaction mutates nothing. -/
theorem admin_ops_require_authority (s : ChainState)
    (caller mint : Pubkey) (config : TokenConfig)
    (hc : lookupKey s.configs mint = some config)
    (hne : config.authority ≠ caller) :
    (∀ (wallet : Pubkey) (now : Int),
      approve_wallet s caller wallet mint now =
        .error .UnauthorizedAuthority) ∧
    (∀ (recipient : Pubkey) (amount : Nat),
      mint_tokens s caller recipient mint amount =
        .error .UnauthorizedAuthority) := by
  constructor
  · intro wallet now
    simp [approve_wallet, hc, hne]
  · intro recipient amount
    simp [mint_tokens, hc, hne]

/-- C5, witness: caller 5 is not authority 1; both admin operations are
rejected (here with a fully valid approve target and mint request). -/
theorem admin_ops_require_authority_witness :
    approve_wallet stApproved 5 7 0 9 = .error .UnauthorizedAuthority ∧
    mint_tokens stApproved 5 2 0 4 = .error .UnauthorizedAuthority :=
  ⟨(admin_ops_require_authority stApproved 5 0 cfg0 rfl (by decide)).1 7 9,
   (admin_ops_require_authority stApproved 5 0 cfg0 rfl (by decide)).2 2 4⟩

/-- C6, counterexample. The claim puts the `amount > 0` check first, so that
a zero-amount mint by a non-authority caller would fail with `InvalidAmount`.
In the source the authority check is the `constraint` on the `token_config`
account of `MintTokens`, and Anchor validates the account context before the
handler body runs its `require!(amount > 0)`: with caller 5 (not authority 1),
amount 0 and an approved recipient, the call fails with
`UnauthorizedAuthority`, not `InvalidAmount`. -/
theorem mint_tokens_zero_amount_nonauthority :
    mint_tokens stApproved 5 2 0 0 = .error .UnauthorizedAuthority ∧
    ErrorCode.UnauthorizedAuthority ≠ ErrorCode.InvalidAmount :=
  ⟨rfl, by decide⟩

/-- C6, amended. `mint_tokens` evaluates its checks in the order: authority
first (`UnauthorizedAuthority`, from the account-validation constraint), then
the recipient entry lookup (`NotFound` when absent), then `amount > 0`
(`InvalidAmount`), then the recipient approval flag (`WalletNotApproved`);
in particular a call with amount = 0 by a non-authority caller fails with
`UnauthorizedAuthority`. -/
theorem mint_tokens_check_order (s : ChainState)
    (caller recipient mint : Pubkey) (config : TokenConfig)
    (hc : lookupKey s.configs mint = some config) :
    (config.authority ≠ caller → ∀ amount : Nat,
      mint_tokens s caller recipient mint amount =
        .error .UnauthorizedAuthority) ∧
    (config.authority = caller →
      lookupKey s.entries (mint, recipient) = none → ∀ amount : Nat,
      mint_tokens s caller recipient mint amount = .error .NotFound) ∧
    (config.authority = caller →
      ∀ e, lookupKey s.entries (mint, recipient) = some e →
      mint_tokens s caller recipient mint 0 = .error .InvalidAmount) ∧
    (config.authority = caller →
      ∀ e, lookupKey s.entries (mint, recipient) = some e →
      e.is_approved = false → ∀ amount : Nat, 0 < amount →
      mint_tokens s caller recipient mint amount =
        .error .WalletNotApproved) := by
  refine ⟨?_, ?_, ?_, ?_⟩
  · intro hne amount
    simp [mint_tokens, hc, hne]
  · intro ha he amount
    simp [mint_tokens, hc, ha, he]
  · intro ha e he
    simp [mint_tokens, hc, ha, he]
  · intro ha e he hna amount hamt
    simp [mint_tokens, hc, ha, he, hna, hamt]

/-- C6, witness for the amended order: a zero-amount mint by the authority to
an approved recipient is the point where `InvalidAmount` does fire. -/
theorem mint_tokens_check_order_witness :
    mint_tokens stApproved 1 2 0 0 = .error .InvalidAmount :=
  (mint_tokens_check_order stApproved 1 2 0 cfg0 rfl).2.2.1 rfl
    entryApproved rfl

/-- C7. With the authority calling and a positive amount, `mint_tokens`
fails with `NotFound` when the recipient has no `AllowlistEntry` (the PDA
lookup during account validation) and with `WalletNotApproved` when the
entry exists with `is_approved = false`; both outcomes reject the
transaction, so `total_supply` is unchanged. -/
theorem mint_tokens_unapproved_recipient (s : ChainState)
    (caller recipient mint : Pubkey) (amount : Nat) (config : TokenConfig)
    (hc : lookupKey s.configs mint = some config)
    (ha : config.authority = caller)
    (hamt : 0 < amount) :
    (lookupKey s.entries (mint, recipient) = none →
      mint_tokens s caller recipient mint amount = .error .NotFound) ∧
    (∀ e, lookupKey s.entries (mint, recipient) = some e →
      e.is_approved = false →
      mint_tokens s caller recipient mint amount =
        .error .WalletNotApproved) := by
  constructor
  · intro he
    simp [mint_tokens, hc, ha, he]
  · intro e he hna
    simp [mint_tokens, hc, ha, he, hna, hamt]

/-- C7, witness: minting to the revoked wallet 2 is rejected, and minting to
a wallet with no entry at all is `NotFound`. -/
theorem mint_tokens_unapproved_recipient_witness :
    mint_tokens stRevoked 1 2 0 4 = .error .WalletNotApproved ∧
    mint_tokens stRevoked 1 9 0 4 = .error .NotFound :=
  ⟨(mint_tokens_unapproved_recipient stRevoked 1 2 0 4 cfg0 rfl rfl
      (by decide)).2 entryRevoked rfl rfl,
   (mint_tokens_unapproved_recipient stRevoked 1 9 0 4 cfg0 rfl rfl
      (by decide)).1 rfl⟩

/-- C8. `initialize_token` succeeds exactly when the symbol byte length is in
[3, 10], the name byte length is in [2, 50], `decimals ≤ 9` and no config for
this mint exists; on success the new `TokenConfig` stores the given
authority, mint, symbol, name and decimals with `total_supply = 0`; each
precondition violated on its own yields `InvalidSymbol`, `InvalidName`,
`InvalidDecimals` or `AlreadyExists` respectively, and every failure creates
nothing (the transaction is rejected whole). -/
theorem initialize_token_spec (s : ChainState) (authority mint : Pubkey)
    (symbol name : List UInt8) (decimals : Nat) :
    ((∃ s', initialize_token s authority mint symbol name decimals = .ok s')
      ↔ (lookupKey s.configs mint = none ∧
         3 ≤ symbol.length ∧ symbol.length ≤ 10 ∧
         2 ≤ name.length ∧ name.length ≤ 50 ∧ decimals ≤ 9)) ∧
    (lookupKey s.configs mint = none →
      3 ≤ symbol.length → symbol.length ≤ 10 →
      2 ≤ name.length → name.length ≤ 50 → decimals ≤ 9 →
      initialize_token s authority mint symbol name decimals =
        .ok (setConfig s mint
          (mkConfig authority mint symbol name decimals))) ∧
    (lookupKey s.configs mint = none →
      ¬(3 ≤ symbol.length ∧ symbol.length ≤ 10) →
      initialize_token s authority mint symbol name decimals =
        .error .InvalidSymbol) ∧
    (lookupKey s.configs mint = none →
      3 ≤ symbol.length → symbol.length ≤ 10 →
      ¬(2 ≤ name.length ∧ name.length ≤ 50) →
      initialize_token s authority mint symbol name decimals =
        .error .InvalidName) ∧
    (lookupKey s.configs mint = none →
      3 ≤ symbol.length → symbol.length ≤ 10 →
      2 ≤ name.length → name.length ≤ 50 → ¬ decimals ≤ 9 →
      initialize_token s authority mint symbol name decimals =
        .error .InvalidDecimals) ∧
    (∀ c, lookupKey s.configs mint = some c →
      initialize_token s authority mint symbol name decimals =
        .error .AlreadyExists) := by
  refine ⟨?_, ?_, ?_, ?_, ?_, ?_⟩
  · constructor
    · rintro ⟨s', hs'⟩
      rcases hl : lookupKey s.configs mint with _ | c
      · rw [initialize_token, hl] at hs'
        split_ifs at hs' with h1 h2 h3
        exact ⟨rfl, h1.1, h1.2, h2.1, h2.2, h3⟩
      · rw [initialize_token, hl] at hs'
        exact absurd hs' (by simp)
    · rintro ⟨hl, hs1, hs2, hn1, hn2, hd⟩
      refine ⟨setConfig s mint (mkConfig authority mint symbol name decimals), ?_⟩
      rw [initialize_token, hl]
      simp [hs1, hs2, hn1, hn2, hd, setConfig, mkConfig]
  · intro hl hs1 hs2 hn1 hn2 hd
    rw [initialize_token, hl]
    simp [hs1, hs2, hn1, hn2, hd, mkConfig, setConfig]
  · intro hl hbad
    rw [initialize_token, hl]
    simp [hbad]
  · intro hl hs1 hs2 hbad
    rw [initialize_token, hl]
    simp [hs1, hs2, hbad]
  · intro hl hs1 hs2 hn1 hn2 hbad
    rw [initialize_token, hl]
    simp [hs1, hs2, hn1, hn2, hbad]
  · intro c hl
    rw [initialize_token, hl]

/-- C8, witness: a fresh, fully valid initialization produces the expected
config with zero supply. -/
theorem initialize_token_spec_witness :
    initialize_token stEmpty 1 0 symABC nameAB 6 = .ok stInit := by
  have h : initialize_token stEmpty 1 0 symABC nameAB 6 =
      .ok (setConfig stEmpty 0 (mkConfig 1 0 symABC nameAB 6)) :=
    (initialize_token_spec stEmpty 1 0 symABC nameAB 6).2.1 rfl
      (by decide) (by decide) (by decide) (by decide) (by decide)
  exact h

/-- C9. `revoke_wallet`, called by the authority on an existing entry, sets
`is_approved = false` and `revoked_at = some now`, touching no other field;
it fails with `NotFound` when the entry was never created and with
`UnauthorizedAuthority` when the caller is not the authority; a second
revoke keeps `is_approved = false` and refreshes `revoked_at` to the later
timestamp. -/
theorem revoke_wallet_spec (s : ChainState)
    (caller wallet mint : Pubkey) (now : Int) (config : TokenConfig)
    (hc : lookupKey s.configs mint = some config) :
    (config.authority = caller →
      ∀ e, lookupKey s.entries (mint, wallet) = some e →
      revoke_wallet s caller wallet mint now =
        .ok (setEntry s mint wallet
          { e with is_approved := false, revoked_at := some now })) ∧
    (config.authority = caller →
      lookupKey s.entries (mint, wallet) = none →
      revoke_wallet s caller wallet mint now = .error .NotFound) ∧
    (config.authority ≠ caller →
      revoke_wallet s caller wallet mint now =
        .error .UnauthorizedAuthority) ∧
    (config.authority = caller →
      ∀ e, lookupKey s.entries (mint, wallet) = some e → ∀ t2 : Int,
      revoke_wallet
          (setEntry s mint wallet
            { e with is_approved := false, revoked_at := some now })
          caller wallet mint t2 =
        .ok (setEntry
          (setEntry s mint wallet
            { e with is_approved := false, revoked_at := some now })
          mint wallet
          { e with is_approved := false, revoked_at := some t2 })) := by
  refine ⟨?_, ?_, ?_, ?_⟩
  · intro ha e he
    simp [revoke_wallet, hc, ha, he, setEntry]
  · intro ha he
    simp [revoke_wallet, hc, ha, he]
  · intro hne
    simp [revoke_wallet, hc, hne]
  · intro ha e he t2
    simp [revoke_wallet, setEntry, hc, ha, lookupKey_setKey_self]

/-- C9, witness: the authority revokes the approved wallet 2 at time 40. -/
theorem revoke_wallet_spec_witness :
    revoke_wallet stApproved 1 2 0 40 =
      .ok (setEntry stApproved 0 2
        { entryApproved with is_approved := false, revoked_at := some 40 }) :=
  (revoke_wallet_spec stApproved 1 2 0 40 cfg0 rfl).1 rfl entryApproved rfl

/-- C10. The symbol validation of `initialize_token` looks only at the byte
length: for every byte content whose length lies in [3, 10] — lowercase
letters, digits, punctuation, or the bytes of multi-byte characters alike —
the call never fails with `InvalidSymbol`, even though the `InvalidSymbol`
message promises 3-10 uppercase letters. -/
theorem initialize_token_symbol_length_only :
    (∀ (s : ChainState) (authority mint : Pubkey)
      (symbol name : List UInt8) (decimals : Nat),
      3 ≤ symbol.length → symbol.length ≤ 10 →
      initialize_token s authority mint symbol name decimals ≠
        .error .InvalidSymbol) ∧
    errorMsg ErrorCode.InvalidSymbol =
      some "Invalid symbol: must be 3-10 uppercase letters" := by
  constructor
  · intro s authority mint symbol name decimals hs1 hs2
    have hsym : 3 ≤ symbol.length ∧ symbol.length ≤ 10 := ⟨hs1, hs2⟩
    rcases hl : lookupKey s.configs mint with _ | c
    · rw [initialize_token]
      simp only [hl]
      rw [if_pos hsym]
      split_ifs <;> simp
    · rw [initialize_token]
      simp only [hl]
      simp
  · rfl

/-- C10, witness: the bytes of the lowercase multi-byte string "abé"
(97, 98, 195, 169) pass the symbol check. -/
theorem initialize_token_symbol_length_only_witness :
    initialize_token stEmpty 1 0 [97, 98, 195, 169] nameAB 6 ≠
      .error .InvalidSymbol :=
  initialize_token_symbol_length_only.1 stEmpty 1 0 [97, 98, 195, 169]
    nameAB 6 (by decide) (by decide)

end GatedToken
